import Mathlib

/-!
Shallow embedding of the vertical image-stitching service
(`services/imageService.ts`, `types.ts`) and of the slice of `App.tsx` that
feeds it.

Modelling conventions:
* A browser `File` is identified by its byte contents (`JsFile`).
* JS `number` arithmetic on image dimensions is modelled exactly over `ℚ`
  (the code keeps `scaledHeight`/`totalHeight` as JS numbers and rounds once
  at the end with `Math.round`; Mathlib's `round` is `⌊x + 1/2⌋`, which agrees
  with `Math.round` on every rational).
* Browser and third-party capabilities (image decoding, `FileReader`,
  `canvas.getContext`, `canvas.toDataURL`, `fetch`, `URL.createObjectURL`,
  and the CDN-loaded `piexif` object) are an explicit environment `Env` of
  abstract functions; promise rejections / thrown JS exceptions are
  `Except`.
* The canvas is modelled by its trace of drawing commands (`CanvasOp`), in
  the order the code issues them.  `drawImage` here is the five-argument
  form used by the code, which scales the whole source into the destination
  rectangle (no source cropping).
-/

/-- A browser `File`: for this model, its raw byte contents. -/
structure JsFile where
  bytes : List Nat
deriving DecidableEq

/-- Record `UploadedImage` from `types.ts`. -/
structure UploadedImage where
  id : String
  file : JsFile
  previewUrl : String
  width : Nat
  height : Nat
deriving DecidableEq

/-- A JS runtime value, as far as the EXIF-handling code observes it
(`typeof exifObj === 'object'`).  An object value carries the structured
exif tag-set, modelled as a list of (tag, value) pairs; note that in JS
`typeof null` is also `"object"`. -/
inductive JSVal where
  | objVal (tags : List (String × String))
  | nullVal
  | strVal (s : String)
  | undefVal
  | numVal (n : Int)
deriving DecidableEq

/-- The JS test `typeof v === 'object'`. -/
def typeofIsObject : JSVal → Bool
  | .objVal _ => true
  | .nullVal => true
  | _ => false

/-- One recorded canvas command.  Coordinates and sizes are the JS numbers
passed at the call site. -/
inductive CanvasOp where
  | fillRect (style : String) (x y w h : ℚ)
  | drawImage (source : JsFile) (x y w h : ℚ)
deriving DecidableEq

/-- The CDN-loaded `piexif` capability (`window.piexif`): `load`, `dump`,
`insert`, any of which may throw. -/
structure Piexif where
  load : String → Except String JSVal
  dump : JSVal → Except String String
  insert : String → String → Except String String

/-- The browser environment `stitchImages` runs in.
* `loadImage f` : decoding `f` through an `HTMLImageElement`; on success the
  element's `(naturalWidth, naturalHeight)`, on `onerror` a rejection.
* `readFileAsDataURL` : the `FileReader` data-URL read, which may fail.
* `getContext` : whether `canvas.getContext('2d')` returns a context.
* `piexif` : `window.piexif`, possibly absent.
* `encodeJpeg w h ops` : `canvas.toDataURL("image/jpeg", 1.0)` on a `w × h`
  canvas whose content is the command trace `ops`.
* `fetchBlob` / `createObjectURL` : the final data-URL → blob → object-URL
  conversion. -/
structure Env where
  loadImage : JsFile → Except String (Nat × Nat)
  readFileAsDataURL : JsFile → Except String String
  getContext : Bool
  piexif : Option Piexif
  encodeJpeg : Nat → Nat → List CanvasOp → String
  fetchBlob : String → List Nat
  createObjectURL : List Nat → String

/-- Record `StitchResult` from `types.ts`.  `height` is the value of
`Math.round(totalHeight)`, an integer. -/
structure StitchResult where
  blob : List Nat
  url : String
  width : Nat
  height : Int
deriving DecidableEq

/-- The failures `stitchImages` can surface to its caller: the explicit
`throw new Error("No images to stitch")`, a rejected image load, and the
explicit `throw new Error("Could not get canvas context")`. -/
inductive StitchError where
  | noImages
  | loadFailed (msg : String)
  | noCtx
deriving DecidableEq

/-- Model of `Promise.all(uploadedImages.map(u => loadImage(u.file)))`: load every
file, keeping each file next to its natural dimensions; any rejection
rejects the whole batch. -/
def loadAll (env : Env) : List JsFile → Except String (List (JsFile × Nat × Nat))
  | [] => .ok []
  | f :: fs =>
    match env.loadImage f with
    | .error e => .error e
    | .ok wh =>
      match loadAll env fs with
      | .error e => .error e
      | .ok rest => .ok ((f, wh) :: rest)

/-- One element of the `imageDrawData` array built at lines 50–58. -/
structure ImageDrawData where
  source : JsFile
  naturalWidth : Nat
  naturalHeight : Nat
  scaledHeight : ℚ
  scaleFactor : ℚ
deriving DecidableEq

/-- The `loadedImages.map(...)` body: per image,
`scaleFactor = targetWidth / img.naturalWidth` and
`scaledHeight = img.naturalHeight * scaleFactor`.  (There is no zero-width
guard in the code; `ℚ` division by zero is total, as JS division is.) -/
def computeDrawData (targetWidth : Nat) (loaded : List (JsFile × Nat × Nat)) :
    List ImageDrawData :=
  loaded.map fun x =>
    let scaleFactor : ℚ := (targetWidth : ℚ) / (x.2.1 : ℚ)
    let scaledHeight : ℚ := (x.2.2 : ℚ) * scaleFactor
    ⟨x.1, x.2.1, x.2.2, scaledHeight, scaleFactor⟩

/-- The running `totalHeight += scaledHeight` accumulation: the sum, in
order, of all scaled heights (exact in `ℚ`). -/
def totalScaledHeight (dd : List ImageDrawData) : ℚ :=
  (dd.map (·.scaledHeight)).sum

/-- WebIDL conversion of a JS number to the canvas's `unsigned long`
`width`/`height` attribute: truncate toward zero, modulo 2^32.  Every value
that reaches it in this model is nonnegative, where truncation is the
floor. -/
def jsToUint32 (q : ℚ) : Nat := (⌊q⌋).toNat % 2 ^ 32

/-- The `imageDrawData.forEach` drawing loop (lines 74–78): draw each image
at `(0, currentY)` scaled to `(targetWidth, scaledHeight)`, then advance
`currentY` by `scaledHeight`. -/
def drawLoop (targetWidth : Nat) (currentY : ℚ) :
    List ImageDrawData → List CanvasOp
  | [] => []
  | d :: ds =>
    .drawImage d.source 0 currentY (targetWidth : ℚ) d.scaledHeight ::
      drawLoop targetWidth (currentY + d.scaledHeight) ds

/-- The full canvas command trace: the white background fill over the whole
canvas (`ctx.fillRect(0, 0, canvas.width, canvas.height)` with
`fillStyle = "#FFFFFF"`), then the drawing loop starting at `currentY = 0`. -/
def canvasOps (canvasW canvasH : Nat) (dd : List ImageDrawData) : List CanvasOp :=
  .fillRect "#FFFFFF" 0 0 (canvasW : ℚ) (canvasH : ℚ) :: drawLoop canvasW 0 dd

/-- Step 6 of `stitchImages` (lines 86–116): the EXIF transplant.  A total
function: every internal failure is caught by the nested `try`/`catch`es and
falls back to the pre-transplant `stitchedDataUrl`. -/
def handleExif (env : Env) (firstFile : JsFile) (stitchedDataUrl : String) :
    String :=
  match env.readFileAsDataURL firstFile with
  | .error _ => stitchedDataUrl
  | .ok firstImageDataUrl =>
    match env.piexif with
    | none => stitchedDataUrl
    | some px =>
      match px.load firstImageDataUrl with
      | .error _ => stitchedDataUrl
      | .ok exifObj =>
        if typeofIsObject exifObj then
          match px.dump exifObj with
          | .error _ => stitchedDataUrl
          | .ok exifBytes =>
            match px.insert exifBytes stitchedDataUrl with
            | .error _ => stitchedDataUrl
            | .ok finalDataUrl => finalDataUrl
        else stitchedDataUrl

/-- Function `stitchImages` from `services/imageService.ts`, step for step:
empty-input check; load all images; `targetWidth` from the first loaded
image; per-image draw data and `totalHeight`; canvas creation (its
`unsigned long` dimension attributes) and context check; white fill and
drawing loop; JPEG encoding; best-effort EXIF transplant; data-URL → blob →
object-URL; result record with `height = Math.round(totalHeight)`. -/
def stitchImages (env : Env) (uploadedImages : List UploadedImage) :
    Except StitchError StitchResult :=
  match uploadedImages with
  | [] => .error .noImages
  | u0 :: us =>
    match loadAll env ((u0 :: us).map (·.file)) with
    | .error e => .error (.loadFailed e)
    | .ok loaded =>
      let targetWidth : Nat := (loaded.headD (u0.file, 0, 0)).2.1
      let imageDrawData := computeDrawData targetWidth loaded
      let totalHeight : ℚ := totalScaledHeight imageDrawData
      let canvasH : Nat := jsToUint32 totalHeight
      if env.getContext then
        let ops := canvasOps targetWidth canvasH imageDrawData
        let stitchedDataUrl := env.encodeJpeg targetWidth canvasH ops
        let finalDataUrl := handleExif env u0.file stitchedDataUrl
        let blob := env.fetchBlob finalDataUrl
        let url := env.createObjectURL blob
        .ok ⟨blob, url, targetWidth, round totalHeight⟩
      else .error .noCtx

/-- Whether `stitchImages` resolves (does not throw) on this input. -/
def stitchSucceeds (env : Env) (imgs : List UploadedImage) : Bool :=
  match stitchImages env imgs with
  | .ok _ => true
  | .error _ => false

/-- Whether every step of the EXIF transplant chain succeeds on this
input: the `FileReader` read, the presence of `window.piexif`, `load`
returning a JS object, `dump`, and `insert`. -/
def transplantOk (env : Env) (f : JsFile) (s : String) : Bool :=
  match env.readFileAsDataURL f with
  | .error _ => false
  | .ok url =>
    match env.piexif with
    | none => false
    | some px =>
      match px.load url with
      | .error _ => false
      | .ok v =>
        typeofIsObject v &&
          match px.dump v with
          | .error _ => false
          | .ok b =>
            match px.insert b s with
            | .error _ => false
            | .ok _ => true

/-- The decode → plan → draw prefix of `stitchImages`: the composited
raster of a run, as its canvas dimensions plus its full command trace.
(Everything in `stitchImages` up to `canvas.toDataURL`.) -/
def pixelPlan (env : Env) (imgs : List UploadedImage) :
    Except StitchError (Nat × Nat × List CanvasOp) :=
  match imgs with
  | [] => .error .noImages
  | u0 :: us =>
    match loadAll env ((u0 :: us).map (·.file)) with
    | .error e => .error (.loadFailed e)
    | .ok loaded =>
      let targetWidth : Nat := (loaded.headD (u0.file, 0, 0)).2.1
      let imageDrawData := computeDrawData targetWidth loaded
      let canvasH : Nat := jsToUint32 (totalScaledHeight imageDrawData)
      .ok (targetWidth, canvasH, canvasOps targetWidth canvasH imageDrawData)

/-- The successful-path result of `stitchImages` as a function of the loaded
images: identical, step for step, to the `.ok` branch of `stitchImages`
(used only to state and prove lemmas; `stitchImages` itself stays the
source-shaped definition above). -/
def stitchResultOf (env : Env) (u0 : UploadedImage)
    (loaded : List (JsFile × Nat × Nat)) : StitchResult :=
  let targetWidth : Nat := (loaded.headD (u0.file, 0, 0)).2.1
  let imageDrawData := computeDrawData targetWidth loaded
  let totalHeight : ℚ := totalScaledHeight imageDrawData
  let canvasH : Nat := jsToUint32 totalHeight
  let stitchedDataUrl :=
    env.encodeJpeg targetWidth canvasH (canvasOps targetWidth canvasH imageDrawData)
  let finalDataUrl := handleExif env u0.file stitchedDataUrl
  let blob := env.fetchBlob finalDataUrl
  ⟨blob, env.createObjectURL blob, targetWidth, round totalHeight⟩

/-- Fallback element used with `List.headD`/`List.getD` on canvas traces. -/
def defaultOp : CanvasOp := .fillRect "" 0 0 0 0

/-- Fallback element used with `List.getD` on draw-data lists. -/
def defaultDraw : ImageDrawData := ⟨⟨[]⟩, 0, 0, 0, 0⟩

/-! Concrete inputs and environments used to evaluate the model on closed
instances. -/

/-- An upload whose backing file has bytes `[1]`. -/
def imgA : UploadedImage := ⟨"a", ⟨[1]⟩, "preview-a", 0, 0⟩

/-- An upload whose backing file has bytes `[2]`. -/
def imgB : UploadedImage := ⟨"b", ⟨[2]⟩, "preview-b", 0, 0⟩

/-- An upload whose backing file has bytes `[3]`. -/
def imgC : UploadedImage := ⟨"c", ⟨[3]⟩, "preview-c", 0, 0⟩

/-- Same backing file bytes as `imgA`, every other field different
(`App.tsx` populates `width`/`height` with placeholder values and a random
`id`). -/
def imgA2 : UploadedImage := ⟨"zzz", ⟨[1]⟩, "other-preview", 640, 480⟩

/-- A piexif whose `load` always yields an *empty* metadata block that is
nevertheless a JS object, and whose `insert` prepends the dumped segment. -/
def pxEmptyBlock : Piexif where
  load _ := .ok (.objVal [])
  dump _ := .ok "EXIFSEG"
  insert b s := .ok (b ++ s)

/-- A piexif whose `load` throws. -/
def pxLoadThrows : Piexif where
  load _ := .error "Invalid JPEG, no EXIF"
  dump _ := .ok ""
  insert _ s := .ok s

/-- A piexif whose `load` yields a non-object value (an absent block). -/
def pxNonObject : Piexif where
  load _ := .ok (.strVal "")
  dump _ := .ok "EXIFSEG"
  insert b s := .ok (b ++ s)

/-- Environment whose decoder reports `8 × 8` for every file and whose
piexif reports an empty-but-object metadata block. -/
def envExifEmptyObject : Env where
  loadImage _ := .ok (8, 8)
  readFileAsDataURL _ := .ok "data:first"
  getContext := true
  piexif := some pxEmptyBlock
  encodeJpeg _ _ _ := "ENC"
  fetchBlob _ := [9]
  createObjectURL _ := "U"

/-- Same decoder as `envExifEmptyObject`, but `window.piexif` is absent. -/
def envNoPiexif : Env where
  loadImage _ := .ok (8, 8)
  readFileAsDataURL _ := .ok "data:first"
  getContext := true
  piexif := none
  encodeJpeg _ _ _ := "ENC"
  fetchBlob _ := [9]
  createObjectURL _ := "U"

/-- Same decoder again, with a piexif whose `load` throws. -/
def envExifLoadThrows : Env where
  loadImage _ := .ok (8, 8)
  readFileAsDataURL _ := .ok "data:first"
  getContext := true
  piexif := some pxLoadThrows
  encodeJpeg _ _ _ := "ENC"
  fetchBlob _ := [9]
  createObjectURL _ := "U"

/-- Same decoder again, with a piexif whose `load` yields a non-object. -/
def envExifNonObject : Env where
  loadImage _ := .ok (8, 8)
  readFileAsDataURL _ := .ok "data:first"
  getContext := true
  piexif := some pxNonObject
  encodeJpeg _ _ _ := "ENC"
  fetchBlob _ := [9]
  createObjectURL _ := "U"

/-- Decoder with two different intrinsic widths: file `[1]` is `800 × 600`,
anything else is `400 × 400`. -/
def envTwoWidths : Env where
  loadImage f := if f.bytes = [1] then .ok (800, 600) else .ok (400, 400)
  readFileAsDataURL _ := .ok "data:first"
  getContext := true
  piexif := none
  encodeJpeg _ _ _ := "ENC"
  fetchBlob _ := [7]
  createObjectURL _ := "U"

/-- The spec's worked example: `A: 800×600`, `B: 400×400`, `C: 1600×400`. -/
def envSpecExample : Env where
  loadImage f :=
    if f.bytes = [1] then .ok (800, 600)
    else if f.bytes = [2] then .ok (400, 400)
    else .ok (1600, 400)
  readFileAsDataURL _ := .ok "data:first"
  getContext := true
  piexif := none
  encodeJpeg _ _ _ := "ENC"
  fetchBlob _ := [7]
  createObjectURL _ := "U"

/-- Decoder reporting a `2^20 × 2^20` image: the requested canvas has
`2^40` pixels. -/
def envHugeCanvas : Env where
  loadImage _ := .ok (2 ^ 20, 2 ^ 20)
  readFileAsDataURL _ := .ok "data:first"
  getContext := true
  piexif := none
  encodeJpeg _ _ _ := "ENC"
  fetchBlob _ := [7]
  createObjectURL _ := "U"

/-- Decoder reporting a zero intrinsic width for file `[2]`. -/
def envZeroWidth : Env where
  loadImage f := if f.bytes = [1] then .ok (10, 10) else .ok (0, 7)
  readFileAsDataURL _ := .ok "data:first"
  getContext := true
  piexif := none
  encodeJpeg _ _ _ := "ENC"
  fetchBlob _ := [7]
  createObjectURL _ := "U"

lemma stitchImages_cons (env : Env) (u0 : UploadedImage) (us : List UploadedImage) :
    stitchImages env (u0 :: us) =
      (match loadAll env ((u0 :: us).map (·.file)) with
        | .error e => .error (.loadFailed e)
        | .ok loaded =>
          if env.getContext then .ok (stitchResultOf env u0 loaded)
          else .error .noCtx) := rfl

lemma loadAll_congr {e1 e2 : Env} (h : e1.loadImage = e2.loadImage) :
    ∀ fs, loadAll e1 fs = loadAll e2 fs := by
  intro fs
  induction fs with
  | nil => rfl
  | cons f fs ih => simp only [loadAll, h, ih]

lemma stitchImages_ok_elim {env : Env} {u0 : UploadedImage} {us : List UploadedImage}
    {r : StitchResult} (hok : stitchImages env (u0 :: us) = .ok r) :
    ∃ loaded, loadAll env ((u0 :: us).map (·.file)) = .ok loaded ∧
      env.getContext = true ∧ r = stitchResultOf env u0 loaded := by
  rw [stitchImages_cons] at hok
  cases hL : loadAll env ((u0 :: us).map (·.file)) with
  | error e => rw [hL] at hok; exact absurd hok (by simp)
  | ok loaded =>
    rw [hL] at hok
    cases hctx : env.getContext with
    | false => rw [hctx] at hok; exact absurd hok (by simp)
    | true =>
      rw [hctx] at hok
      simp only [if_true, Except.ok.injEq] at hok
      exact ⟨loaded, rfl, rfl, hok.symm⟩

lemma stitchSucceeds_of_loadAll {env : Env} {u0 : UploadedImage}
    {us : List UploadedImage} {loaded : List (JsFile × Nat × Nat)}
    (hL : loadAll env ((u0 :: us).map (·.file)) = .ok loaded)
    (hctx : env.getContext = true) :
    stitchSucceeds env (u0 :: us) = true := by
  unfold stitchSucceeds
  rw [stitchImages_cons, hL, hctx]
  simp

lemma loadAll_cons_elim {env : Env} {f : JsFile} {fs : List JsFile}
    {L : List (JsFile × Nat × Nat)} (h : loadAll env (f :: fs) = .ok L) :
    ∃ wh rest, env.loadImage f = .ok wh ∧ loadAll env fs = .ok rest ∧
      L = (f, wh) :: rest := by
  unfold loadAll at h
  cases hf : env.loadImage f with
  | error e => rw [hf] at h; exact absurd h (by simp)
  | ok wh =>
    rw [hf] at h
    cases hr : loadAll env fs with
    | error e => rw [hr] at h; exact absurd h (by simp)
    | ok rest =>
      rw [hr] at h
      simp only [Except.ok.injEq] at h
      exact ⟨wh, rest, rfl, rfl, h.symm⟩

lemma totalScaledHeight_computeDrawData (targetWidth : Nat)
    (loaded : List (JsFile × Nat × Nat)) :
    totalScaledHeight (computeDrawData targetWidth loaded) =
      (loaded.map fun x => (x.2.2 : ℚ) * (targetWidth : ℚ) / (x.2.1 : ℚ)).sum := by
  induction loaded with
  | nil => rfl
  | cons x xs ih =>
    simp only [totalScaledHeight, computeDrawData, List.map_cons, List.sum_cons] at *
    rw [ih, mul_div_assoc]

lemma drawLoop_length (targetWidth : Nat) (y : ℚ) (dd : List ImageDrawData) :
    (drawLoop targetWidth y dd).length = dd.length := by
  induction dd generalizing y with
  | nil => rfl
  | cons d ds ih => simp only [drawLoop, List.length_cons, ih]

lemma drawLoop_getD (targetWidth : Nat) (dd : List ImageDrawData) (y : ℚ)
    (i : Nat) (hi : i < dd.length) :
    (drawLoop targetWidth y dd).getD i defaultOp =
      .drawImage ((dd.getD i defaultDraw).source) 0
        (y + (((dd.take i).map (·.scaledHeight)).sum))
        (targetWidth : ℚ) ((dd.getD i defaultDraw).scaledHeight) := by
  induction dd generalizing y i with
  | nil => exact absurd hi (by simp)
  | cons d ds ih =>
    cases i with
    | zero => simp [drawLoop]
    | succ i =>
      have hi' : i < ds.length := by simpa using hi
      simp only [drawLoop, List.getD_cons_succ, List.take_succ_cons,
        List.map_cons, List.sum_cons, ← add_assoc]
      exact ih (y + d.scaledHeight) i hi'

/-- C4: calling stitch with an empty input sequence fails with the
empty-input error (`throw new Error("No images to stitch")`) before any
decode attempt — the result is this error for *every* environment, even one
whose decoder always fails — and produces no output. -/
theorem stitch_empty_input_error (env : Env) :
    stitchImages env [] = .error .noImages := rfl

/-- C1: for every non-empty ordered input on which stitch succeeds, the
result's width is the intrinsic (natural) width of the first image's decoded
raster, whatever the other images decode to. -/
theorem stitch_width_eq_first_image_width (env : Env) (u0 : UploadedImage)
    (us : List UploadedImage) (w h : Nat) (r : StitchResult)
    (hload : env.loadImage u0.file = .ok (w, h))
    (hok : stitchImages env (u0 :: us) = .ok r) :
    r.width = w := by
  obtain ⟨loaded, hL, hctx, hr⟩ := stitchImages_ok_elim hok
  rw [List.map_cons] at hL
  obtain ⟨wh, rest, hf, _, hLL⟩ := loadAll_cons_elim hL
  rw [hload] at hf
  have hwh : (w, h) = wh := Except.ok.inj hf
  subst hLL
  rw [hr, ← hwh]
  simp [stitchResultOf]

/-- Witness for C1: two images of widths 800 and 400; the stitch result has
width 800, the first image's. -/
theorem stitch_width_eq_first_image_width_witness :
    (⟨[7], "U", 800, 1400⟩ : StitchResult).width = 800 :=
  stitch_width_eq_first_image_width envTwoWidths imgA [imgB] 800 600
    ⟨[7], "U", 800, 1400⟩ (by rfl)
    (by simp [stitchImages, loadAll, envTwoWidths, imgA, imgB, computeDrawData,
          totalScaledHeight, jsToUint32, handleExif]
        norm_num [round_eq])

/-- C2: for every non-empty input on which stitch succeeds (with every
decoded width positive, as the decoder guarantees), the reported height is
`round` of the *exact* sum of the real-valued per-image scaled heights
`intrinsicHeight * targetWidth / intrinsicWidth` — rounding happens once, on
the final accumulated sum. -/
theorem stitch_height_single_final_rounding (env : Env) (u0 : UploadedImage)
    (us : List UploadedImage) (L : List (JsFile × Nat × Nat)) (r : StitchResult)
    (hL : loadAll env ((u0 :: us).map (·.file)) = .ok L)
    (hpos : ∀ x ∈ L, 0 < x.2.1)
    (hok : stitchImages env (u0 :: us) = .ok r) :
    r.height =
      round ((L.map fun x =>
        (x.2.2 : ℚ) * ((L.headD (u0.file, 0, 0)).2.1 : ℚ) / (x.2.1 : ℚ)).sum) := by
  obtain ⟨loaded, hL', hctx, hr⟩ := stitchImages_ok_elim hok
  rw [hL] at hL'
  have hLL : L = loaded := Except.ok.inj hL'
  subst hLL
  rw [hr]
  simp [stitchResultOf, totalScaledHeight_computeDrawData]

/-- Witness for C2, the spec's worked example: inputs `800×600`, `400×400`,
`1600×400` give scaled heights `600, 800, 200` and reported height
`round(1600) = 1600`. -/
theorem stitch_height_single_final_rounding_witness :
    (⟨[7], "U", 800, 1600⟩ : StitchResult).height = 1600 :=
  (stitch_height_single_final_rounding envSpecExample imgA [imgB, imgC]
      [(⟨[1]⟩, 800, 600), (⟨[2]⟩, 400, 400), (⟨[3]⟩, 1600, 400)]
      ⟨[7], "U", 800, 1600⟩ (by rfl) (by decide)
      (by simp [stitchImages, loadAll, envSpecExample, imgA, imgB, imgC,
            computeDrawData, totalScaledHeight, jsToUint32, handleExif]
          norm_num [round_eq])).trans
    (by norm_num [round_eq])

/-- C10: the stitch result depends only on the ordered sequence of each
element's file byte contents; the `id`, `previewUrl`, `width` and `height`
fields of the `UploadedImage`s have no influence at all. -/
theorem stitch_depends_only_on_file_bytes (env : Env)
    (imgs1 imgs2 : List UploadedImage)
    (hfiles : imgs1.map (·.file) = imgs2.map (·.file)) :
    stitchImages env imgs1 = stitchImages env imgs2 := by
  cases imgs1 with
  | nil =>
    cases imgs2 with
    | nil => rfl
    | cons v vs => simp at hfiles
  | cons u us =>
    cases imgs2 with
    | nil => simp at hfiles
    | cons v vs =>
      simp only [List.map_cons, List.cons.injEq] at hfiles
      obtain ⟨hf, ht⟩ := hfiles
      have hsr : ∀ L, stitchResultOf env u L = stitchResultOf env v L := by
        intro L
        unfold stitchResultOf
        rw [hf]
      rw [stitchImages_cons, stitchImages_cons]
      simp only [List.map_cons]
      rw [hf, ht]
      simp only [hsr]

/-- Witness for C10: same file bytes, every other `UploadedImage` field
different (`id`, `previewUrl`, and the placeholder `width = height = 0`
versus `640 × 480`); the results coincide. -/
theorem stitch_depends_only_on_file_bytes_witness :
    stitchImages envNoPiexif [imgA] = stitchImages envNoPiexif [imgA2] :=
  stitch_depends_only_on_file_bytes envNoPiexif [imgA] [imgA2] (by rfl)

/-- C3: whenever decoding and the context check succeed, the stitch as a
whole succeeds no matter what the metadata capabilities do; and whenever any
step of the transplant chain fails (`FileReader` read, absent
`window.piexif`, `load` failure or non-object result, `dump` failure,
`insert` failure), the transplant returns the pre-transplant encoded bytes
unmodified. -/
theorem exif_failures_absorbed (env : Env) (u0 : UploadedImage)
    (us : List UploadedImage) (L : List (JsFile × Nat × Nat))
    (hL : loadAll env ((u0 :: us).map (·.file)) = .ok L)
    (hctx : env.getContext = true) :
    stitchSucceeds env (u0 :: us) = true ∧
    ∀ s, transplantOk env u0.file s = false → handleExif env u0.file s = s := by
  refine ⟨stitchSucceeds_of_loadAll hL hctx, ?_⟩
  intro s hfail
  unfold transplantOk at hfail
  cases hr : env.readFileAsDataURL u0.file with
  | error e => simp [handleExif, hr]
  | ok url =>
    simp only [hr] at hfail
    cases hpx : env.piexif with
    | none => simp [handleExif, hr, hpx]
    | some px =>
      simp only [hpx] at hfail
      cases hl : px.load url with
      | error e => simp [handleExif, hr, hpx, hl]
      | ok v =>
        simp only [hl] at hfail
        cases hobj : typeofIsObject v with
        | false => simp [handleExif, hr, hpx, hl, hobj]
        | true =>
          simp only [hobj, Bool.true_and] at hfail
          cases hd : px.dump v with
          | error e => simp [handleExif, hr, hpx, hl, hobj, hd]
          | ok b =>
            simp only [hd] at hfail
            cases hi : px.insert b s with
            | error e => simp [handleExif, hr, hpx, hl, hobj, hd, hi]
            | ok out =>
              rw [hi] at hfail
              simp at hfail

/-- Witness for C3: a piexif whose `load` throws; the stitch still succeeds
and the transplant hands back the encoded bytes unchanged. -/
theorem exif_failures_absorbed_witness :
    handleExif envExifLoadThrows ⟨[1]⟩ "ENC" = "ENC" :=
  (exif_failures_absorbed envExifLoadThrows imgA [] [(⟨[1]⟩, 8, 8)] rfl rfl).2
    "ENC" rfl

/-- Counterexample to C5: `load` yields an *empty* metadata block that
is a JS object (`{}` with no tags); the code's only guard is
`typeof exifObj === 'object'`, so the empty block is dumped and spliced and
the returned bytes differ from the pre-transplant bytes. -/
theorem empty_exif_block_still_spliced :
    pxEmptyBlock.load "data:first" = .ok (.objVal []) ∧
    handleExif envExifEmptyObject ⟨[1]⟩ "ENC" = "EXIFSEG" ++ "ENC" ∧
    "EXIFSEG" ++ "ENC" ≠ "ENC" := ⟨rfl, rfl, by decide⟩

/-- C5 (amended): after a successful extraction the code skips splicing
only when the loaded value is not a JS object (the absent case); when the
loaded value is an object — even an empty block — it is serialized and
spliced, and the insertion result is returned. -/
theorem exif_skip_only_for_non_object (env : Env) (f : JsFile) (s : String)
    (px : Piexif) (url : String) (v : JSVal)
    (hpx : env.piexif = some px)
    (hread : env.readFileAsDataURL f = .ok url)
    (hload : px.load url = .ok v) :
    (typeofIsObject v = false → handleExif env f s = s) ∧
    (∀ b out, typeofIsObject v = true → px.dump v = .ok b →
      px.insert b s = .ok out → handleExif env f s = out) := by
  constructor
  · intro h
    unfold handleExif
    simp [hread, hpx, hload, h]
  · intro b out hobj hd hi
    unfold handleExif
    simp [hread, hpx, hload, hobj, hd, hi]

/-- Witness for the amended C5: `load` yields a non-object (absent block);
the encoded bytes come back unchanged. -/
theorem exif_skip_only_for_non_object_witness :
    handleExif envExifNonObject ⟨[1]⟩ "ENC" = "ENC" :=
  (exif_skip_only_for_non_object envExifNonObject ⟨[1]⟩ "ENC" pxNonObject
      "data:first" (.strVal "") rfl rfl rfl).1 rfl

/-- Counterexample to C6: a requested canvas of `2^20 × 2^20 = 2^40`
pixels — beyond any plausible pixel budget — is composited without any
`AllocationError`: the code has no pixel-budget check at all (the model's
error type, taken from the code's `throw` sites, has no such failure). -/
theorem no_allocation_error_on_huge_canvas :
    stitchImages envHugeCanvas [imgA] = .ok ⟨[7], "U", 2 ^ 20, 2 ^ 20⟩ ∧
    (2 ^ 20) * (2 ^ 20) > (10 ^ 9 : Nat) := by
  constructor
  · norm_num [stitchImages, loadAll, envHugeCanvas, imgA, computeDrawData,
      totalScaledHeight, jsToUint32, handleExif, round_eq]
  · norm_num

/-- C6 (amended): there is no pixel-budget check: whenever all images
load and a 2d context is available, compositing proceeds and the stitch
succeeds, even when the requested canvas area exceeds an arbitrarily large
budget. -/
theorem stitch_succeeds_beyond_any_budget (env : Env) (u0 : UploadedImage)
    (us : List UploadedImage) (L : List (JsFile × Nat × Nat)) (budget : Nat)
    (hL : loadAll env ((u0 :: us).map (·.file)) = .ok L)
    (hctx : env.getContext = true)
    (hbig : budget <
      (L.headD (u0.file, 0, 0)).2.1 *
        jsToUint32 (totalScaledHeight
          (computeDrawData (L.headD (u0.file, 0, 0)).2.1 L))) :
    stitchSucceeds env (u0 :: us) = true :=
  stitchSucceeds_of_loadAll hL hctx

/-- Witness for the amended C6: the `2^40`-pixel canvas exceeds a `10^9`
budget and the stitch still succeeds. -/
theorem stitch_succeeds_beyond_any_budget_witness :
    stitchSucceeds envHugeCanvas [imgA] = true :=
  stitch_succeeds_beyond_any_budget envHugeCanvas imgA []
    [(⟨[1]⟩, 2 ^ 20, 2 ^ 20)] (10 ^ 9) rfl rfl
    (by norm_num [totalScaledHeight, computeDrawData, jsToUint32] <;> decide)

/-- Counterexample to C7: the second image decodes with
`intrinsicWidth = 0`, yet the stitch does not fail with any
`InvariantViolation` — there is no defensive width check and the division is
evaluated unguarded (JS yields `Infinity`; no exception either way). -/
theorem zero_width_no_failure :
    envZeroWidth.loadImage ⟨[2]⟩ = .ok (0, 7) ∧
    stitchSucceeds envZeroWidth [imgA, imgB] = true :=
  ⟨rfl,
    @stitchSucceeds_of_loadAll envZeroWidth imgA [imgB]
      [(⟨[1]⟩, 10, 10), (⟨[2]⟩, 0, 7)] rfl rfl⟩

/-- C7 (amended): the layout step performs no zero-width check: even
when some decoded image has `intrinsicWidth = 0`, planning evaluates the
division unguarded and the stitch succeeds rather than failing with an
`InvariantViolation`. -/
theorem zero_width_planning_still_succeeds (env : Env) (u0 : UploadedImage)
    (us : List UploadedImage) (L : List (JsFile × Nat × Nat))
    (x : JsFile × Nat × Nat)
    (hL : loadAll env ((u0 :: us).map (·.file)) = .ok L)
    (hctx : env.getContext = true)
    (hx : x ∈ L) (hzero : x.2.1 = 0) :
    stitchSucceeds env (u0 :: us) = true :=
  stitchSucceeds_of_loadAll hL hctx

/-- Witness for the amended C7. -/
theorem zero_width_planning_still_succeeds_witness :
    stitchSucceeds envZeroWidth [imgA, imgB] = true :=
  zero_width_planning_still_succeeds envZeroWidth imgA [imgB]
    [(⟨[1]⟩, 10, 10), (⟨[2]⟩, 0, 7)] (⟨[2]⟩, 0, 7) rfl rfl (by decide) rfl

/-- C8: for every non-empty input, the canvas trace starts with one
opaque-white `fillRect` over the full canvas extent, followed by exactly one
`drawImage` per source image in ascending index order; image `i` is drawn at
`(0, yOffset)` with `yOffset` the sum of the scaled heights of images
`0..i-1`, scaled to `(targetWidth, scaledHeight i)` — the whole source is
drawn (five-argument `drawImage`), so nothing is cropped. -/
theorem compositor_white_fill_then_ordered_draws (canvasW canvasH : Nat)
    (loaded : List (JsFile × Nat × Nat)) (i : Nat) (hi : i < loaded.length) :
    (canvasOps canvasW canvasH (computeDrawData canvasW loaded)).headD defaultOp =
      .fillRect "#FFFFFF" 0 0 (canvasW : ℚ) (canvasH : ℚ) ∧
    (canvasOps canvasW canvasH (computeDrawData canvasW loaded)).length =
      loaded.length + 1 ∧
    (canvasOps canvasW canvasH (computeDrawData canvasW loaded)).getD (i + 1)
        defaultOp =
      .drawImage ((computeDrawData canvasW loaded).getD i defaultDraw).source 0
        ((((computeDrawData canvasW loaded).take i).map (·.scaledHeight)).sum)
        (canvasW : ℚ)
        ((computeDrawData canvasW loaded).getD i defaultDraw).scaledHeight := by
  have hlen : (computeDrawData canvasW loaded).length = loaded.length := by
    simp [computeDrawData]
  refine ⟨rfl, ?_, ?_⟩
  · simp [canvasOps, drawLoop_length, hlen]
  · have hd := drawLoop_getD canvasW (computeDrawData canvasW loaded) 0 i
      (by rw [hlen]; exact hi)
    simpa [canvasOps] using hd

/-- Witness for C8: with sources `800×600` then `400×400` at target width
800, the op after the white fill draws the second image at `y = 600` scaled
to `800 × 800`. -/
theorem compositor_white_fill_then_ordered_draws_witness :
    (canvasOps 800 1600 (computeDrawData 800
        [(⟨[1]⟩, 800, 600), (⟨[2]⟩, 400, 400)])).getD 2 defaultOp =
      .drawImage ⟨[2]⟩ 0 600 800 800 :=
  ((compositor_white_fill_then_ordered_draws 800 1600
      [(⟨[1]⟩, 800, 600), (⟨[2]⟩, 400, 400)] 1 (by decide)).2.2).trans
    (by norm_num [computeDrawData])

/-- C9: two runs of stitch on byte-identical input sequences — under
environments that agree on the decoder but may differ arbitrarily in the
metadata capabilities (`window.piexif`, `FileReader`), the encoder and the
blob plumbing — produce the identical composited raster (canvas dimensions
and full draw trace) and identical reported `(width, height)`; only the
post-raster (metadata-bearing) bytes can differ. -/
theorem pixel_content_independent_of_metadata_env (e1 e2 : Env)
    (imgs1 imgs2 : List UploadedImage) (r1 r2 : StitchResult)
    (hload : e1.loadImage = e2.loadImage)
    (hfiles : imgs1.map (·.file) = imgs2.map (·.file))
    (h1 : stitchImages e1 imgs1 = .ok r1)
    (h2 : stitchImages e2 imgs2 = .ok r2) :
    pixelPlan e1 imgs1 = pixelPlan e2 imgs2 ∧
    r1.width = r2.width ∧ r1.height = r2.height := by
  cases imgs1 with
  | nil => exact absurd h1 (by simp [stitchImages])
  | cons u us =>
    cases imgs2 with
    | nil => simp at hfiles
    | cons v vs =>
      simp only [List.map_cons, List.cons.injEq] at hfiles
      obtain ⟨hf, ht⟩ := hfiles
      obtain ⟨L1, hL1, hctx1, hr1⟩ := stitchImages_ok_elim h1
      obtain ⟨L2, hL2, hctx2, hr2⟩ := stitchImages_ok_elim h2
      have hsame : loadAll e1 ((u :: us).map (·.file)) =
          loadAll e2 ((v :: vs).map (·.file)) := by
        rw [loadAll_congr hload]
        simp only [List.map_cons]
        rw [hf, ht]
      rw [hL1, hL2] at hsame
      have hLL : L1 = L2 := Except.ok.inj hsame
      subst hLL
      subst hr1
      subst hr2
      refine ⟨?_, ?_, ?_⟩
      · simp only [pixelPlan, List.map_cons]
        rw [loadAll_congr hload, hf, ht]
      · simp [stitchResultOf, hf]
      · simp [stitchResultOf, hf]

/-- Witness for C9: same input bytes under two environments that differ in
`window.piexif` (an empty-object codec versus none at all); the pixel plans
coincide (and so do the reported dimensions). -/
theorem pixel_content_independent_of_metadata_env_witness :
    pixelPlan envExifEmptyObject [imgA] = pixelPlan envNoPiexif [imgA2] :=
  (pixel_content_independent_of_metadata_env envExifEmptyObject envNoPiexif
      [imgA] [imgA2] ⟨[9], "U", 8, 8⟩ ⟨[9], "U", 8, 8⟩ rfl rfl
      (by norm_num [stitchImages, loadAll, envExifEmptyObject, imgA,
        computeDrawData, totalScaledHeight, jsToUint32, handleExif,
        pxEmptyBlock, typeofIsObject, round_eq])
      (by norm_num [stitchImages, loadAll, envNoPiexif, imgA2,
        computeDrawData, totalScaledHeight, jsToUint32, handleExif,
        round_eq])).1
